import Mathlib

/-!
Shallow embedding of the TrackPro calibration engine.

The definitions below are translated from the C++ sources:
- `src/GUI/mainwindow.cpp` / `mainwindow.h` (Qt front end: ranges, the
  integer normalizer in `updateAxis`, validation, backup history and the
  user operations),
- `src/src/main.cpp` (Win32 front end: the same integer normalizer in
  `WindowProc`),
- `src/src/RegistryHandler.cpp` (calibration-string parsing, the binary
  record, and the registry key construction).

C++ `LONG` values are modelled as `Int` (signed overflow is undefined
behaviour and never exercised on the 0..4095 domain); `DWORD` values are
modelled as `Nat` with explicit reductions modulo `2^32` where the source
performs 32-bit unsigned arithmetic.
-/

namespace TrackPro

/-- Inclusive calibration bound pair, from `struct AxisRange { LONG min; LONG max; }`
(mainwindow.h lines 26-29, RegistryHandler.h lines 12-15, main.cpp lines 82-85). -/
structure AxisRange where
  min : Int
  max : Int
deriving DecidableEq

/-- Integer normalization of a raw sample against a range, from the
`updateAxis` lambda (mainwindow.cpp lines 480-498) and the identical
`xCalPercent`/`zCalPercent`/`ryCalPercent` expressions (main.cpp lines
518-528).  C++ `/` on `LONG` truncates toward zero, which is `Int.tdiv`. -/
def calPercent (raw : Int) (range : AxisRange) : Int :=
  if raw ≤ range.min then 0
  else if raw ≥ range.max then 100
  else Int.tdiv ((raw - range.min) * 100) (range.max - range.min)

/-- Warnings surfaced by `MainWindow::validateAxisRange` via `QMessageBox`
(mainwindow.cpp lines 567-584). -/
inductive RangeWarning where
  | invalidRange
  | narrowRange
deriving DecidableEq

/-- Return value of `MainWindow::validateAxisRange` (mainwindow.cpp lines
567-584): `false` when `min >= max`, `false` when the span is below 409,
`true` otherwise. -/
def validateAxisRange (range : AxisRange) : Bool :=
  if range.min ≥ range.max then false
  else if range.max - range.min < 409 then false
  else true

/-- Which warning dialog `MainWindow::validateAxisRange` pops before
returning, if any (mainwindow.cpp lines 567-584). -/
def validateAxisRangeWarning (range : AxisRange) : Option RangeWarning :=
  if range.min ≥ range.max then some RangeWarning.invalidRange
  else if range.max - range.min < 409 then some RangeWarning.narrowRange
  else none

/-- One full three-axis snapshot, from
`struct CalibrationBackup { AxisRange x, z, ry; }` (mainwindow.h line 105). -/
structure CalibrationBackup where
  x : AxisRange
  z : AxisRange
  ry : AxisRange
deriving DecidableEq

/-- History push with capacity-10 eviction, from
`MainWindow::backupCurrentCalibration` (mainwindow.cpp lines 598-606):
`push_back` the snapshot, then if `size() > 10` erase the entry at
`begin()` (index 0). -/
def pushBackup (history : List CalibrationBackup) (backup : CalibrationBackup) :
    List CalibrationBackup :=
  let h := history ++ [backup]
  if 10 < h.length then h.drop 1 else h

/-- Mutable state of `MainWindow` relevant to calibration (mainwindow.h):
the three live ranges, the `m_calibrated` flag, the backup history, the
most recent raw samples, and the percentages last shown by `updateAxis`. -/
structure MWState where
  xRange : AxisRange
  zRange : AxisRange
  ryRange : AxisRange
  m_calibrated : Bool
  calibrationHistory : List CalibrationBackup
  currentXRaw : Int
  currentZRaw : Int
  currentRYRaw : Int
  xPercent : Int
  zPercent : Int
  ryPercent : Int
deriving DecidableEq

/-- State at process start: full-scale default ranges (mainwindow.cpp lines
30-32), `m_calibrated = false` (mainwindow.h line 49), empty history, zero
raw samples (mainwindow.h lines 88-90). -/
def initialState : MWState :=
  { xRange := ⟨0, 4095⟩, zRange := ⟨0, 4095⟩, ryRange := ⟨0, 4095⟩
  , m_calibrated := false, calibrationHistory := []
  , currentXRaw := 0, currentZRaw := 0, currentRYRaw := 0
  , xPercent := 0, zPercent := 0, ryPercent := 0 }

/-- One successful tick of `MainWindow::updateValues` (mainwindow.cpp lines
398-505): store the freshly polled raw samples, then recompute the
displayed percentage of each axis by passing the current raw sample and
the axis's live range to the normalizer. -/
def updateValues (s : MWState) (rawX rawZ rawRY : Int) : MWState :=
  { s with currentXRaw := rawX, currentZRaw := rawZ, currentRYRaw := rawRY
         , xPercent := calPercent rawX s.xRange
         , zPercent := calPercent rawZ s.zRange
         , ryPercent := calPercent rawRY s.ryRange }

/-- `MainWindow::setAxisMin` (mainwindow.cpp lines 632-655): overwrite the
chosen axis's `min` with its current raw sample.  The `switch` has no
default case, so any other index is a no-op.  No validation is performed
and `m_calibrated` is untouched. -/
def setAxisMin (s : MWState) (axis : Nat) : MWState :=
  match axis with
  | 0 => { s with xRange := ⟨s.currentXRaw, s.xRange.max⟩ }
  | 1 => { s with zRange := ⟨s.currentZRaw, s.zRange.max⟩ }
  | 2 => { s with ryRange := ⟨s.currentRYRaw, s.ryRange.max⟩ }
  | _ => s

/-- `MainWindow::setAxisMax` (mainwindow.cpp lines 657-687): overwrite the
chosen axis's `max` with its current raw sample and set
`m_calibrated = true`.  No validation is performed. -/
def setAxisMax (s : MWState) (axis : Nat) : MWState :=
  match axis with
  | 0 => { s with xRange := ⟨s.xRange.min, s.currentXRaw⟩, m_calibrated := true }
  | 1 => { s with zRange := ⟨s.zRange.min, s.currentZRaw⟩, m_calibrated := true }
  | 2 => { s with ryRange := ⟨s.ryRange.min, s.currentRYRaw⟩, m_calibrated := true }
  | _ => s

/-- `MainWindow::resetCalibration` (mainwindow.cpp lines 507-523): clear
`m_calibrated` and restore all three default ranges.  The history is not
touched. -/
def resetCalibration (s : MWState) : MWState :=
  { s with m_calibrated := false
         , xRange := ⟨0, 4095⟩, zRange := ⟨0, 4095⟩, ryRange := ⟨0, 4095⟩ }

/-- `MainWindow::restoreDefaults` (mainwindow.cpp lines 525-545): first
`backupCurrentCalibration()` pushes the current snapshot, then the same
reset as `resetCalibration` is performed. -/
def restoreDefaults (s : MWState) : MWState :=
  let backedUp :=
    { s with calibrationHistory :=
        pushBackup s.calibrationHistory ⟨s.xRange, s.zRange, s.ryRange⟩ }
  { backedUp with m_calibrated := false
                , xRange := ⟨0, 4095⟩, zRange := ⟨0, 4095⟩, ryRange := ⟨0, 4095⟩ }

/-- `MainWindow::restoreLastCalibration` (mainwindow.cpp lines 608-630):
if the history is empty, only an informational dialog is shown; otherwise
the most recent snapshot is copied into the live ranges and popped.
`m_calibrated` is untouched. -/
def restoreLastCalibration (s : MWState) : MWState :=
  match s.calibrationHistory.getLast? with
  | none => s
  | some backup =>
      { s with xRange := backup.x, zRange := backup.z, ryRange := backup.ry
             , calibrationHistory := s.calibrationHistory.dropLast }

/-- User-visible operations of the calibration controller: a successful
poll tick and the five button-driven slots of `MainWindow`. -/
inductive Op where
  | update (rawX rawZ rawRY : Int)
  | setAxisMin (axis : Nat)
  | setAxisMax (axis : Nat)
  | resetCalibration
  | restoreDefaults
  | restoreLastCalibration
deriving DecidableEq

/-- One controller step. -/
def step (s : MWState) (op : Op) : MWState :=
  match op with
  | Op.update rawX rawZ rawRY => updateValues s rawX rawZ rawRY
  | Op.setAxisMin axis => setAxisMin s axis
  | Op.setAxisMax axis => setAxisMax s axis
  | Op.resetCalibration => resetCalibration s
  | Op.restoreDefaults => restoreDefaults s
  | Op.restoreLastCalibration => restoreLastCalibration s

/-- Run a sequence of operations from a starting state. -/
def run (s : MWState) (ops : List Op) : MWState :=
  ops.foldl step s

/-! ### Registry persistence (`src/src/RegistryHandler.cpp`) -/

/-- Fixed-layout binary registry record, from `#pragma pack(1)`
`struct AxisCalibration` (RegistryHandler.cpp lines 6-14): five 4-byte
unsigned (`DWORD`) fields with no padding. -/
structure AxisCalibration where
  min : Nat
  mid : Nat
  max : Nat
  minDeadzone : Nat
  maxDeadzone : Nat
deriving DecidableEq

/-- Axis index to registry record slot, from the `switch` in
`saveCalibrationToRegistry` (RegistryHandler.cpp lines 46-52): X maps to
slot 0, Z to slot 2, RY to slot 4, anything else to 0. -/
def registrySlot (axisIndex : Nat) : Nat :=
  match axisIndex with
  | 0 => 0
  | 1 => 2
  | 2 => 4
  | _ => 0

/-- Registry path up to the slot number.  The identical literal appears in
`saveCalibrationToRegistry` (RegistryHandler.cpp line 55) and in
`readCalibrationData` (RegistryHandler.cpp line 142). -/
def axisKeyBase : String :=
  "System\\CurrentControlSet\\Control\\MediaProperties\\PrivateProperties\\DirectInput\\VID_1DD2&PID_2735\\Calibration\\0\\Type\\Axes\\"

/-- Key under which `saveCalibrationToRegistry` writes an axis's record
(RegistryHandler.cpp line 55): the base path plus the mapped registry
slot. -/
def saveCalibrationKey (axisIndex : Nat) : String :=
  axisKeyBase ++ toString (registrySlot axisIndex)

/-- Key from which `readCalibrationData` reads an axis's record
(RegistryHandler.cpp lines 140-143): the base path plus the loop index
itself — the slot mapping is not applied. -/
def readCalibrationKey (axisIndex : Nat) : String :=
  axisKeyBase ++ toString axisIndex

/-- Numeric parse modelling `std::stoul` on the token substrings of
`saveCalibrationToRegistry`: the leading decimal digits are converted; no
leading digit raises `std::invalid_argument` and a value outside the
32-bit `unsigned long` range raises `std::out_of_range`, both modelled as
`none` (the exception aborts the write). -/
def stoulQ (cs : List Char) : Option Nat :=
  let ds := cs.takeWhile Char.isDigit
  if ds.isEmpty then none
  else
    let v := ds.foldl (fun a c => a * 10 + (c.toNat - 48)) 0
    if v < 4294967296 then some v else none

/-- Test modelling `token.find(pre) == 0` in `saveCalibrationToRegistry`:
does `pre` occur at position 0 of the token? -/
def hasPref : List Char → List Char → Bool
  | [], _ => true
  | _ :: _, [] => false
  | p :: ps, c :: cs => p == c && hasPref ps cs

/-- Parse accumulator of `saveCalibrationToRegistry` (RegistryHandler.cpp
line 58): `DWORD min = 0, max = 4095, minDeadzone = 0, maxDeadzone = 0`. -/
structure CalibFields where
  min : Nat
  max : Nat
  minDeadzone : Nat
  maxDeadzone : Nat
deriving DecidableEq

/-- Processing of one semicolon-terminated token, from the `switch` inside
the parse loop of `saveCalibrationToRegistry` (RegistryHandler.cpp lines
63-94).  The `substr` offsets are the source's own: 5 after `MinX=` /
`MaxX=` / `MinZ=` / `MaxZ=`, 6 after `MinRY=` / `MaxRY=`, but 12 after the
13-character prefixes `MinDeadzoneX=` / `MaxDeadzoneX=` / `MinDeadzoneZ=`
/ `MaxDeadzoneZ=` and 13 after the 14-character prefixes `MinDeadzoneRY=`
/ `MaxDeadzoneRY=`, so for deadzone tokens the parsed substring still
starts with the `=` sign.  A token matching no prefix leaves the
accumulator unchanged, as does any token when the axis index has no
`switch` case. -/
def procTok (axisIndex : Nat) (f : CalibFields) (tok : List Char) : Option CalibFields :=
  match axisIndex with
  | 0 =>
    if hasPref "MinX=".data tok then
      (stoulQ (tok.drop 5)).map (fun v => { f with min := v })
    else if hasPref "MaxX=".data tok then
      (stoulQ (tok.drop 5)).map (fun v => { f with max := v })
    else if hasPref "MinDeadzoneX=".data tok then
      (stoulQ (tok.drop 12)).map (fun v => { f with minDeadzone := v })
    else if hasPref "MaxDeadzoneX=".data tok then
      (stoulQ (tok.drop 12)).map (fun v => { f with maxDeadzone := v })
    else some f
  | 1 =>
    if hasPref "MinZ=".data tok then
      (stoulQ (tok.drop 5)).map (fun v => { f with min := v })
    else if hasPref "MaxZ=".data tok then
      (stoulQ (tok.drop 5)).map (fun v => { f with max := v })
    else if hasPref "MinDeadzoneZ=".data tok then
      (stoulQ (tok.drop 12)).map (fun v => { f with minDeadzone := v })
    else if hasPref "MaxDeadzoneZ=".data tok then
      (stoulQ (tok.drop 12)).map (fun v => { f with maxDeadzone := v })
    else some f
  | 2 =>
    if hasPref "MinRY=".data tok then
      (stoulQ (tok.drop 6)).map (fun v => { f with min := v })
    else if hasPref "MaxRY=".data tok then
      (stoulQ (tok.drop 6)).map (fun v => { f with max := v })
    else if hasPref "MinDeadzoneRY=".data tok then
      (stoulQ (tok.drop 13)).map (fun v => { f with minDeadzone := v })
    else if hasPref "MaxDeadzoneRY=".data tok then
      (stoulQ (tok.drop 13)).map (fun v => { f with maxDeadzone := v })
    else some f
  | _ => some f

/-- Does the token begin with one of the axis's recognized prefixes? -/
def recognizedTok (axisIndex : Nat) (tok : List Char) : Bool :=
  match axisIndex with
  | 0 => hasPref "MinX=".data tok || hasPref "MaxX=".data tok ||
         hasPref "MinDeadzoneX=".data tok || hasPref "MaxDeadzoneX=".data tok
  | 1 => hasPref "MinZ=".data tok || hasPref "MaxZ=".data tok ||
         hasPref "MinDeadzoneZ=".data tok || hasPref "MaxDeadzoneZ=".data tok
  | 2 => hasPref "MinRY=".data tok || hasPref "MaxRY=".data tok ||
         hasPref "MinDeadzoneRY=".data tok || hasPref "MaxDeadzoneRY=".data tok
  | _ => false

/-- Tokenizer matching the `while ((next = find(L";", pos)) != npos)` loop
of `saveCalibrationToRegistry` (RegistryHandler.cpp lines 61-96): each
segment before a `;` is a token; a trailing segment with no terminating
`;` is never processed. -/
def splitTokensAux (cs : List Char) (acc : List Char) : List (List Char) :=
  match cs with
  | [] => []
  | c :: rest =>
      if c = ';' then acc :: splitTokensAux rest []
      else splitTokensAux rest (acc ++ [c])

/-- Tokens of a calibration-data string. -/
def splitTokens (cs : List Char) : List (List Char) :=
  splitTokensAux cs []

/-- Record produced by one call of `saveCalibrationToRegistry`
(RegistryHandler.cpp lines 42-119): fold the token processor over the
tokens starting from the defaults `{0, 4095, 0, 0}`, then derive
`DWORD mid = (min + max) / 2` (32-bit unsigned arithmetic) and assemble
the `AxisCalibration` record that is written (line 110).  `none` models an
uncaught `std::stoul` exception, which aborts the write. -/
def parseCalibrationData (calibrationData : String) (axisIndex : Nat) :
    Option AxisCalibration :=
  ((splitTokens calibrationData.data).foldlM (procTok axisIndex) ⟨0, 4095, 0, 0⟩).map
    fun f => ⟨f.min, ((f.min + f.max) % 4294967296) / 2, f.max, f.minDeadzone, f.maxDeadzone⟩

/-- Little-endian bytes of one 4-byte unsigned field. -/
def le4 (n : Nat) : List Nat :=
  [n % 256, n / 256 % 256, n / 65536 % 256, n / 16777216 % 256]

/-- Byte image of the packed 20-byte `AxisCalibration` record passed to
`RegSetValueExW` (RegistryHandler.cpp lines 110-119): `#pragma pack(1)`
leaves no padding, and x86 Windows stores each `DWORD` little-endian. -/
def serializeCalibration (a : AxisCalibration) : List Nat :=
  le4 a.min ++ le4 a.mid ++ le4 a.max ++ le4 a.minDeadzone ++ le4 a.maxDeadzone

/-- Value of the 4-byte little-endian field at the head of a byte list. -/
def rd4 (bs : List Nat) : Nat :=
  match bs with
  | b0 :: b1 :: b2 :: b3 :: _ => b0 + 256 * b1 + 65536 * b2 + 16777216 * b3
  | _ => 0

/-- Decoding of a stored blob into the record read back by
`RegQueryValueExW` into a `sizeof(AxisCalibration)` buffer
(RegistryHandler.cpp lines 146-158): the blob must be exactly 20 bytes. -/
def deserializeCalibration (bs : List Nat) : Option AxisCalibration :=
  if bs.length = 20 then
    some ⟨rd4 bs, rd4 (bs.drop 4), rd4 (bs.drop 8), rd4 (bs.drop 12), rd4 (bs.drop 16)⟩
  else none

/-- Digit expansion worker; `fuel` only bounds the recursion depth (any
`fuel > n` yields the decimal digits of `n`). -/
def natDigitsAux (fuel n : Nat) : List Char :=
  match fuel with
  | 0 => []
  | fuel + 1 =>
      if n < 10 then [Nat.digitChar n]
      else natDigitsAux fuel (n / 10) ++ [Nat.digitChar (n % 10)]

/-- Decimal digits of a nonnegative value, modelling `std::to_wstring` on
the `LONG` range bounds (all producer calls pass values in 0..4095). -/
def natDigits (n : Nat) : List Char :=
  natDigitsAux (n + 1) n

/-- Calibration-data string built by every producer call site for an axis:
`"Min<axis>=" + to_wstring(min) + ";Max<axis>=" + to_wstring(max) + ";"`
(mainwindow.cpp lines 516-518, 534-536, 621-623, 638-651, 663-681 and
main.cpp lines 306-318). -/
def producerCalibString (axisIndex : Nat) (mn mx : Nat) : List Char :=
  match axisIndex with
  | 0 => "MinX=".data ++ natDigits mn ++ ";MaxX=".data ++ natDigits mx ++ ";".data
  | 1 => "MinZ=".data ++ natDigits mn ++ ";MaxZ=".data ++ natDigits mx ++ ";".data
  | 2 => "MinRY=".data ++ natDigits mn ++ ";MaxRY=".data ++ natDigits mx ++ ";".data
  | _ => []

/-- Operation sequence exhibiting a degenerate range: one tick polls raw
X = 1000, then Set Minimum and Set Maximum are clicked on axis X with the
sample unchanged, then the next tick runs. -/
def degenerateOps : List Op :=
  [Op.update 1000 1000 1000, Op.setAxisMin 0, Op.setAxisMax 0, Op.update 1000 1000 1000]

/-! ### Claims -/

/-- Claim C1, counterexample: at the proposed range {100, 200} (span 100,
below 409) the validation operation pops the narrow-range warning but
returns `false`, so validation does not succeed as the claim states. -/
theorem validateAxisRange_narrow_cex :
    validateAxisRange ⟨100, 200⟩ = false
    ∧ validateAxisRangeWarning ⟨100, 200⟩ = some RangeWarning.narrowRange := by
  decide

/-- Claim C1, amended: for every proposed range with min < max and span
below 409, the range-validation operation reports the NarrowRange warning
and rejects the range (returns `false`); a range is accepted exactly when
min < max and the span is at least 409. -/
theorem validateAxisRange_narrow_rejects (r : AxisRange) :
    (r.min < r.max → r.max - r.min < 409 →
      validateAxisRangeWarning r = some RangeWarning.narrowRange
      ∧ validateAxisRange r = false)
    ∧ (validateAxisRange r = true ↔ (r.min < r.max ∧ 409 ≤ r.max - r.min)) := by
  constructor
  · intro h1 h2
    have hn : ¬ r.min ≥ r.max := by omega
    constructor
    · simp only [validateAxisRangeWarning, if_neg hn, if_pos h2]
    · simp only [validateAxisRange, if_neg hn, if_pos h2]
  · simp only [validateAxisRange]
    split_ifs with hge hlt <;> simp <;> omega

/-- Claim C1, witness: the amended statement applied at the range
{100, 200}. -/
theorem validateAxisRange_narrow_rejects_witness :
    ((100 : Int) < 200 ∧ (200 : Int) - 100 < 409)
    ∧ (validateAxisRangeWarning ⟨100, 200⟩ = some RangeWarning.narrowRange
       ∧ validateAxisRange ⟨100, 200⟩ = false) :=
  ⟨⟨by decide, by decide⟩,
   (validateAxisRange_narrow_rejects ⟨100, 200⟩).1 (by decide) (by decide)⟩

/-- Claim C2: the write path maps the axis index through the registry
slot table (0, 2, 4) while the read path appends the loop index (0, 1, 2)
directly, so only axis X reads the key it writes; for Z and RY the key
read differs from the key written — and the key read for "axis 2" is in
fact the key written for Z. -/
theorem calibrationKey_read_write_mismatch :
    saveCalibrationKey 0 = readCalibrationKey 0
    ∧ saveCalibrationKey 1 ≠ readCalibrationKey 1
    ∧ saveCalibrationKey 2 ≠ readCalibrationKey 2
    ∧ readCalibrationKey 2 = saveCalibrationKey 1 := by
  decide

/-- Claim C3, counterexample: with the default range {0, 4095} the integer
normalization of raw = 2048 is not 49. -/
theorem calPercent_default_midpoint_cex : ¬ calPercent 2048 ⟨0, 4095⟩ = 49 := by
  decide

/-- Claim C3, amended: with the default range {0, 4095} the integer
normalization yields 0 for raw = 0, 100 for raw = 4095 and 50 for
raw = 2048 (integer truncation of 2048 * 100 / 4095 = 50.01... is 50). -/
theorem calPercent_default_scenario :
    calPercent 0 ⟨0, 4095⟩ = 0
    ∧ calPercent 4095 ⟨0, 4095⟩ = 100
    ∧ calPercent 2048 ⟨0, 4095⟩ = 50 := by
  decide

/-- Claim C4: a range with min = max is reachable by user operations and
is passed to the normalization computation — after polling raw X = 1000
and clicking Set Minimum then Set Maximum on axis X, the X range is
{1000, 1000} (which the unused validator would reject), and the following
tick hands exactly that range to the normalizer.  No set operation calls
`validateAxisRange`, so no guard exists. -/
theorem degenerate_range_reaches_normalizer :
    (run initialState degenerateOps).xRange.min = (run initialState degenerateOps).xRange.max
    ∧ (run initialState degenerateOps).xRange = ⟨1000, 1000⟩
    ∧ (run initialState degenerateOps).xPercent
        = calPercent (run initialState degenerateOps).currentXRaw
            (run initialState degenerateOps).xRange
    ∧ validateAxisRange (run initialState degenerateOps).xRange = false := by
  decide

/-- Claim C8: the backup operation appends at the end and evicts index 0
once the size exceeds 10 — on a full history of 10 the oldest entry is
dropped and the new snapshot appended, and pushing 11 snapshots into an
empty history retains exactly the last 10 in push order. -/
theorem pushBackup_evicts_oldest
    (h : List CalibrationBackup) (b : CalibrationBackup) (hlen : h.length = 10)
    (b0 b1 b2 b3 b4 b5 b6 b7 b8 b9 b10 : CalibrationBackup) :
    pushBackup h b = h.drop 1 ++ [b]
    ∧ List.foldl pushBackup [] [b0, b1, b2, b3, b4, b5, b6, b7, b8, b9, b10]
        = [b1, b2, b3, b4, b5, b6, b7, b8, b9, b10]
    ∧ (List.foldl pushBackup [] [b0, b1, b2, b3, b4, b5, b6, b7, b8, b9, b10]).length
        = 10 := by
  refine ⟨?_, by simp [pushBackup], by simp [pushBackup]⟩
  match h, hlen with
  | a :: t, hlen =>
    have ht : t.length = 9 := by simpa using hlen
    simp [pushBackup, ht]

/-- Claim C8, witness: the eviction equation applied to a concrete full
history of ten identical snapshots plus the scenario conjuncts. -/
theorem pushBackup_evicts_oldest_witness :
    (List.replicate 10 (⟨⟨0, 1⟩, ⟨0, 1⟩, ⟨0, 1⟩⟩ : CalibrationBackup)).length = 10
    ∧ pushBackup (List.replicate 10 ⟨⟨0, 1⟩, ⟨0, 1⟩, ⟨0, 1⟩⟩) ⟨⟨2, 3⟩, ⟨2, 3⟩, ⟨2, 3⟩⟩
        = (List.replicate 10 (⟨⟨0, 1⟩, ⟨0, 1⟩, ⟨0, 1⟩⟩ : CalibrationBackup)).drop 1
          ++ [⟨⟨2, 3⟩, ⟨2, 3⟩, ⟨2, 3⟩⟩] :=
  ⟨by decide,
   (pushBackup_evicts_oldest (List.replicate 10 ⟨⟨0, 1⟩, ⟨0, 1⟩, ⟨0, 1⟩⟩)
      ⟨⟨2, 3⟩, ⟨2, 3⟩, ⟨2, 3⟩⟩ (by decide)
      ⟨⟨0, 1⟩, ⟨0, 1⟩, ⟨0, 1⟩⟩ ⟨⟨0, 1⟩, ⟨0, 1⟩, ⟨0, 1⟩⟩ ⟨⟨0, 1⟩, ⟨0, 1⟩, ⟨0, 1⟩⟩
      ⟨⟨0, 1⟩, ⟨0, 1⟩, ⟨0, 1⟩⟩ ⟨⟨0, 1⟩, ⟨0, 1⟩, ⟨0, 1⟩⟩ ⟨⟨0, 1⟩, ⟨0, 1⟩, ⟨0, 1⟩⟩
      ⟨⟨0, 1⟩, ⟨0, 1⟩, ⟨0, 1⟩⟩ ⟨⟨0, 1⟩, ⟨0, 1⟩, ⟨0, 1⟩⟩ ⟨⟨0, 1⟩, ⟨0, 1⟩, ⟨0, 1⟩⟩
      ⟨⟨0, 1⟩, ⟨0, 1⟩, ⟨0, 1⟩⟩ ⟨⟨0, 1⟩, ⟨0, 1⟩, ⟨0, 1⟩⟩).1⟩

/-- Claim C5: for every range with min < max and every raw value, the
integer normalization returns 0 when raw ≤ min, 100 when raw ≥ max, and
otherwise the floor of (raw - min) * 100 / (max - min) (truncation and
floor agree on the nonnegative operands of this branch); its result is
always in [0, 100]. -/
theorem calPercent_spec (raw : Int) (range : AxisRange) (h : range.min < range.max) :
    (raw ≤ range.min → calPercent raw range = 0)
    ∧ (range.max ≤ raw → calPercent raw range = 100)
    ∧ (range.min < raw → raw < range.max →
        calPercent raw range
          = Int.fdiv ((raw - range.min) * 100) (range.max - range.min))
    ∧ 0 ≤ calPercent raw range ∧ calPercent raw range ≤ 100 := by
  have key : range.min < raw → raw < range.max →
      calPercent raw range
        = ((((raw - range.min).toNat * 100) / (range.max - range.min).toNat : Nat) : Int) := by
    intro h1 h2
    have hm : ((raw - range.min).toNat : Int) = raw - range.min :=
      Int.toNat_of_nonneg (by omega)
    have hk : (((range.max - range.min).toNat : Int)) = range.max - range.min :=
      Int.toNat_of_nonneg (by omega)
    have hcal : calPercent raw range
        = Int.tdiv ((raw - range.min) * 100) (range.max - range.min) := by
      simp only [calPercent, if_neg (by omega : ¬ raw ≤ range.min),
        if_neg (by omega : ¬ raw ≥ range.max)]
    rw [hcal, ← hm, ← hk]
    push_cast
    rfl
  refine ⟨?_, ?_, ?_, ?_⟩
  · intro h1; simp only [calPercent, if_pos h1]
  · intro h2
    simp only [calPercent, if_neg (by omega : ¬ raw ≤ range.min),
      if_pos (by omega : raw ≥ range.max)]
  · intro h1 h2
    rw [key h1 h2]
    rw [Int.fdiv_eq_tdiv (mul_nonneg (by omega) (by norm_num)) (by omega)]
    have hm : ((raw - range.min).toNat : Int) = raw - range.min :=
      Int.toNat_of_nonneg (by omega)
    have hk : (((range.max - range.min).toNat : Int)) = range.max - range.min :=
      Int.toNat_of_nonneg (by omega)
    rw [← hm, ← hk]
    push_cast
    rfl
  · rcases le_or_lt raw range.min with h1 | h1
    · simp only [calPercent, if_pos h1]; norm_num
    · rcases le_or_lt range.max raw with h2 | h2
      · simp only [calPercent, if_neg (by omega : ¬ raw ≤ range.min),
          if_pos (by omega : raw ≥ range.max)]
        norm_num
      · rw [key h1 h2]
        have hmk : (raw - range.min).toNat < (range.max - range.min).toNat := by omega
        have hkpos : 0 < (range.max - range.min).toNat := by omega
        constructor
        · positivity
        · have hlt : (raw - range.min).toNat * 100 / (range.max - range.min).toNat < 100 := by
            rw [Nat.div_lt_iff_lt_mul hkpos]
            omega
          exact_mod_cast Nat.le_of_lt hlt

/-- Claim C5, witness: the normalizer bounds applied at raw = 2048 with
the default range. -/
theorem calPercent_spec_witness :
    ((0 : Int) < 4095)
    ∧ (0 ≤ calPercent 2048 ⟨0, 4095⟩ ∧ calPercent 2048 ⟨0, 4095⟩ ≤ 100) :=
  ⟨by decide, (calPercent_spec 2048 ⟨0, 4095⟩ (by decide)).2.2.2⟩

/-- Claim C6: the calibrated flag starts false, a set-min operation never
changes it, and any step that ends with the flag true either started with
it true or was a set-max operation. -/
theorem calibrated_only_by_setAxisMax :
    initialState.m_calibrated = false
    ∧ (∀ s axis, (step s (Op.setAxisMin axis)).m_calibrated = s.m_calibrated)
    ∧ (∀ s op, (step s op).m_calibrated = true →
        s.m_calibrated = true ∨ ∃ axis, op = Op.setAxisMax axis) := by
  refine ⟨rfl, ?_, ?_⟩
  · intro s axis
    rcases axis with _ | _ | _ | axis <;> rfl
  · intro s op h
    cases op with
    | update rawX rawZ rawRY => exact Or.inl h
    | setAxisMin axis => rcases axis with _ | _ | _ | axis <;> exact Or.inl h
    | setAxisMax axis => exact Or.inr ⟨axis, rfl⟩
    | resetCalibration => simp [step, resetCalibration] at h
    | restoreDefaults => simp [step, restoreDefaults] at h
    | restoreLastCalibration =>
        refine Or.inl ?_
        unfold step restoreLastCalibration at h
        cases hl : s.calibrationHistory.getLast? with
        | none => rw [hl] at h; exact h
        | some b => rw [hl] at h; exact h

/-- Claim C6, witness: the flag statement applied at the initial state,
with a set-min on axis X and a set-max on axis X as the concrete
operations. -/
theorem calibrated_only_by_setAxisMax_witness :
    initialState.m_calibrated = false
    ∧ (step initialState (Op.setAxisMin 0)).m_calibrated = initialState.m_calibrated
    ∧ (initialState.m_calibrated = true ∨ ∃ axis, Op.setAxisMax 0 = Op.setAxisMax axis) :=
  ⟨calibrated_only_by_setAxisMax.1,
   calibrated_only_by_setAxisMax.2.1 initialState 0,
   calibrated_only_by_setAxisMax.2.2 initialState (Op.setAxisMax 0) (by decide)⟩

/-- Claim C7: restoreDefaults pushes the pre-reset three-axis snapshot
onto the history and then restores the default ranges and clears the
flag; resetCalibration performs the same range/flag change with the
history untouched; and no operation other than restoreDefaults (and the
popping restoreLastCalibration) ever changes the history. -/
theorem restoreDefaults_backs_up_reset_does_not (s : MWState) :
    (step s Op.restoreDefaults).calibrationHistory
        = pushBackup s.calibrationHistory ⟨s.xRange, s.zRange, s.ryRange⟩
    ∧ (step s Op.restoreDefaults).xRange = ⟨0, 4095⟩
    ∧ (step s Op.restoreDefaults).zRange = ⟨0, 4095⟩
    ∧ (step s Op.restoreDefaults).ryRange = ⟨0, 4095⟩
    ∧ (step s Op.restoreDefaults).m_calibrated = false
    ∧ (step s Op.resetCalibration).calibrationHistory = s.calibrationHistory
    ∧ (step s Op.resetCalibration).xRange = ⟨0, 4095⟩
    ∧ (step s Op.resetCalibration).zRange = ⟨0, 4095⟩
    ∧ (step s Op.resetCalibration).ryRange = ⟨0, 4095⟩
    ∧ (step s Op.resetCalibration).m_calibrated = false
    ∧ (∀ op, op ≠ Op.restoreDefaults → op ≠ Op.restoreLastCalibration →
        (step s op).calibrationHistory = s.calibrationHistory) := by
  refine ⟨rfl, rfl, rfl, rfl, rfl, rfl, rfl, rfl, rfl, rfl, ?_⟩
  intro op h1 h2
  cases op with
  | update rawX rawZ rawRY => rfl
  | setAxisMin axis => rcases axis with _ | _ | _ | axis <;> rfl
  | setAxisMax axis => rcases axis with _ | _ | _ | axis <;> rfl
  | resetCalibration => rfl
  | restoreDefaults => exact absurd rfl h1
  | restoreLastCalibration => exact absurd rfl h2

/-- Claim C7, witness: the backup/reset statement applied at the initial
state, with resetCalibration as the concrete history-preserving
operation. -/
theorem restoreDefaults_backs_up_reset_does_not_witness :
    (Op.resetCalibration ≠ Op.restoreDefaults)
    ∧ (step initialState Op.resetCalibration).calibrationHistory
        = initialState.calibrationHistory :=
  ⟨by decide,
   (restoreDefaults_backs_up_reset_does_not initialState).2.2.2.2.2.2.2.2.2.2
     Op.resetCalibration (by decide) (by decide)⟩

theorem digitChar_facts : ∀ d, d < 10 →
    (Nat.digitChar d).isDigit = true ∧ (Nat.digitChar d).toNat = 48 + d := by
  decide

theorem hasPref_append (p rest : List Char) : hasPref p (p ++ rest) = true := by
  induction p with
  | nil => rfl
  | cons c cs ih => simp [hasPref, ih]

theorem natDigitsAux_digits (fuel : Nat) : ∀ n, n < fuel →
    ∀ c ∈ natDigitsAux fuel n, c.isDigit = true := by
  induction fuel with
  | zero => intro n hn; omega
  | succ fuel ih =>
      intro n hn c hc
      rw [natDigitsAux] at hc
      by_cases h10 : n < 10
      · rw [if_pos h10] at hc
        simp at hc
        subst hc
        exact (digitChar_facts n h10).1
      · rw [if_neg h10] at hc
        rcases List.mem_append.mp hc with h | h
        · exact ih (n / 10) (by omega) c h
        · simp at h
          subst h
          exact (digitChar_facts (n % 10) (Nat.mod_lt _ (by omega))).1

theorem natDigitsAux_ne_nil (fuel n : Nat) (h : n < fuel) : natDigitsAux fuel n ≠ [] := by
  match fuel with
  | fuel + 1 =>
    rw [natDigitsAux]
    by_cases h10 : n < 10
    · simp [if_pos h10]
    · simp [if_neg h10]

theorem natDigitsAux_foldl (fuel : Nat) : ∀ n acc, n < fuel →
    (natDigitsAux fuel n).foldl (fun a c => a * 10 + (c.toNat - 48)) acc
      = acc * 10 ^ (natDigitsAux fuel n).length + n := by
  induction fuel with
  | zero => intro n acc hn; omega
  | succ fuel ih =>
      intro n acc hn
      rw [natDigitsAux]
      by_cases h10 : n < 10
      · rw [if_pos h10]
        simp [List.foldl, (digitChar_facts n h10).2]
      · rw [if_neg h10]
        rw [List.foldl_append, List.length_append]
        rw [ih (n / 10) acc (by omega)]
        simp [List.foldl, (digitChar_facts (n % 10) (Nat.mod_lt _ (by omega))).2]
        have hpow : acc * 10 ^ (natDigitsAux fuel (n / 10)).length * 10
            = acc * 10 ^ ((natDigitsAux fuel (n / 10)).length + 1) := by ring
        omega

theorem takeWhile_eq_self_of_all (p : Char → Bool) (l : List Char)
    (h : ∀ c ∈ l, p c = true) : l.takeWhile p = l := by
  induction l with
  | nil => rfl
  | cons c cs ih =>
      rw [List.takeWhile_cons, if_pos (h c (List.mem_cons_self c cs))]
      rw [ih (fun x hx => h x (List.mem_cons_of_mem c hx))]

theorem stoulQ_natDigits (n : Nat) (h : n < 4294967296) :
    stoulQ (natDigits n) = some n := by
  have hd := natDigitsAux_digits (n + 1) n (Nat.lt_succ_self n)
  rw [stoulQ, natDigits]
  rw [takeWhile_eq_self_of_all Char.isDigit _ hd]
  rw [if_neg (by simp [natDigitsAux_ne_nil (n + 1) n (Nat.lt_succ_self n)])]
  rw [natDigitsAux_foldl (n + 1) n 0 (Nat.lt_succ_self n)]
  simp [h]

theorem semi_not_mem_natDigits (n : Nat) : ';' ∉ natDigits n := by
  intro hmem
  have hdig := natDigitsAux_digits (n + 1) n (Nat.lt_succ_self n) ';' hmem
  simp [Char.isDigit] at hdig

theorem splitTokensAux_no_semi (a : List Char) (h : ';' ∉ a) :
    ∀ cs acc, splitTokensAux (a ++ cs) acc = splitTokensAux cs (acc ++ a) := by
  induction a with
  | nil => intro cs acc; simp
  | cons c cs' ih =>
      intro cs acc
      have hc : ¬ c = ';' := fun e => h (by simp [e])
      rw [List.cons_append, splitTokensAux, if_neg hc]
      rw [ih (fun hm => h (List.mem_cons_of_mem c hm)) cs (acc ++ [c])]
      simp

theorem splitTokensAux_semi (cs acc : List Char) :
    splitTokensAux (';' :: cs) acc = acc :: splitTokensAux cs [] := by
  rw [splitTokensAux, if_pos rfl]

theorem splitTokens_producer0 (mn mx : Nat) :
    splitTokens (producerCalibString 0 mn mx)
      = ["MinX=".data ++ natDigits mn, "MaxX=".data ++ natDigits mx] := by
  have e : producerCalibString 0 mn mx
      = "MinX=".data ++ (natDigits mn ++ (';' :: ("MaxX=".data ++ (natDigits mx ++ [';'])))) := by
    simp [producerCalibString, List.append_assoc]
  rw [splitTokens, e]
  rw [splitTokensAux_no_semi "MinX=".data (by decide)]
  rw [splitTokensAux_no_semi (natDigits mn) (semi_not_mem_natDigits mn)]
  rw [splitTokensAux_semi]
  rw [splitTokensAux_no_semi "MaxX=".data (by decide)]
  rw [splitTokensAux_no_semi (natDigits mx) (semi_not_mem_natDigits mx)]
  rw [splitTokensAux_semi]
  simp [splitTokensAux]

theorem splitTokens_producer1 (mn mx : Nat) :
    splitTokens (producerCalibString 1 mn mx)
      = ["MinZ=".data ++ natDigits mn, "MaxZ=".data ++ natDigits mx] := by
  have e : producerCalibString 1 mn mx
      = "MinZ=".data ++ (natDigits mn ++ (';' :: ("MaxZ=".data ++ (natDigits mx ++ [';'])))) := by
    simp [producerCalibString, List.append_assoc]
  rw [splitTokens, e]
  rw [splitTokensAux_no_semi "MinZ=".data (by decide)]
  rw [splitTokensAux_no_semi (natDigits mn) (semi_not_mem_natDigits mn)]
  rw [splitTokensAux_semi]
  rw [splitTokensAux_no_semi "MaxZ=".data (by decide)]
  rw [splitTokensAux_no_semi (natDigits mx) (semi_not_mem_natDigits mx)]
  rw [splitTokensAux_semi]
  simp [splitTokensAux]

theorem splitTokens_producer2 (mn mx : Nat) :
    splitTokens (producerCalibString 2 mn mx)
      = ["MinRY=".data ++ natDigits mn, "MaxRY=".data ++ natDigits mx] := by
  have e : producerCalibString 2 mn mx
      = "MinRY=".data ++ (natDigits mn ++ (';' :: ("MaxRY=".data ++ (natDigits mx ++ [';'])))) := by
    simp [producerCalibString, List.append_assoc]
  rw [splitTokens, e]
  rw [splitTokensAux_no_semi "MinRY=".data (by decide)]
  rw [splitTokensAux_no_semi (natDigits mn) (semi_not_mem_natDigits mn)]
  rw [splitTokensAux_semi]
  rw [splitTokensAux_no_semi "MaxRY=".data (by decide)]
  rw [splitTokensAux_no_semi (natDigits mx) (semi_not_mem_natDigits mx)]
  rw [splitTokensAux_semi]
  simp [splitTokensAux]

theorem procTok0_minX (f : CalibFields) (ds : List Char) :
    procTok 0 f ('M' :: 'i' :: 'n' :: 'X' :: '=' :: ds)
      = (stoulQ ds).map (fun v => { f with min := v }) := rfl

theorem procTok0_maxX (f : CalibFields) (ds : List Char) :
    procTok 0 f ('M' :: 'a' :: 'x' :: 'X' :: '=' :: ds)
      = (stoulQ ds).map (fun v => { f with max := v }) := rfl

theorem procTok1_minZ (f : CalibFields) (ds : List Char) :
    procTok 1 f ('M' :: 'i' :: 'n' :: 'Z' :: '=' :: ds)
      = (stoulQ ds).map (fun v => { f with min := v }) := rfl

theorem procTok1_maxZ (f : CalibFields) (ds : List Char) :
    procTok 1 f ('M' :: 'a' :: 'x' :: 'Z' :: '=' :: ds)
      = (stoulQ ds).map (fun v => { f with max := v }) := rfl

theorem procTok2_minRY (f : CalibFields) (ds : List Char) :
    procTok 2 f ('M' :: 'i' :: 'n' :: 'R' :: 'Y' :: '=' :: ds)
      = (stoulQ ds).map (fun v => { f with min := v }) := rfl

theorem procTok2_maxRY (f : CalibFields) (ds : List Char) :
    procTok 2 f ('M' :: 'a' :: 'x' :: 'R' :: 'Y' :: '=' :: ds)
      = (stoulQ ds).map (fun v => { f with max := v }) := rfl

theorem parseProducer0 (mn mx : Nat) (hmn : mn < 4294967296) (hmx : mx < 4294967296) :
    parseCalibrationData (String.mk (producerCalibString 0 mn mx)) 0
      = some ⟨mn, ((mn + mx) % 4294967296) / 2, mx, 0, 0⟩ := by
  unfold parseCalibrationData
  rw [show (String.mk (producerCalibString 0 mn mx)).data = producerCalibString 0 mn mx from rfl]
  rw [splitTokens_producer0 mn mx]
  simp [List.foldlM, procTok0_minX, procTok0_maxX,
    stoulQ_natDigits mn hmn, stoulQ_natDigits mx hmx]

theorem parseProducer1 (mn mx : Nat) (hmn : mn < 4294967296) (hmx : mx < 4294967296) :
    parseCalibrationData (String.mk (producerCalibString 1 mn mx)) 1
      = some ⟨mn, ((mn + mx) % 4294967296) / 2, mx, 0, 0⟩ := by
  unfold parseCalibrationData
  rw [show (String.mk (producerCalibString 1 mn mx)).data = producerCalibString 1 mn mx from rfl]
  rw [splitTokens_producer1 mn mx]
  simp [List.foldlM, procTok1_minZ, procTok1_maxZ,
    stoulQ_natDigits mn hmn, stoulQ_natDigits mx hmx]

theorem parseProducer2 (mn mx : Nat) (hmn : mn < 4294967296) (hmx : mx < 4294967296) :
    parseCalibrationData (String.mk (producerCalibString 2 mn mx)) 2
      = some ⟨mn, ((mn + mx) % 4294967296) / 2, mx, 0, 0⟩ := by
  unfold parseCalibrationData
  rw [show (String.mk (producerCalibString 2 mn mx)).data = producerCalibString 2 mn mx from rfl]
  rw [splitTokens_producer2 mn mx]
  simp [List.foldlM, procTok2_minRY, procTok2_maxRY,
    stoulQ_natDigits mn hmn, stoulQ_natDigits mx hmx]

theorem procTok_unrecognized (axisIndex : Nat) (f : CalibFields) (tok : List Char)
    (h : recognizedTok axisIndex tok = false) : procTok axisIndex f tok = some f := by
  match axisIndex with
  | 0 =>
      simp only [recognizedTok, Bool.or_eq_false_iff] at h
      obtain ⟨⟨⟨h1, h2⟩, h3⟩, h4⟩ := h
      simp [procTok, h1, h2, h3, h4]
  | 1 =>
      simp only [recognizedTok, Bool.or_eq_false_iff] at h
      obtain ⟨⟨⟨h1, h2⟩, h3⟩, h4⟩ := h
      simp [procTok, h1, h2, h3, h4]
  | 2 =>
      simp only [recognizedTok, Bool.or_eq_false_iff] at h
      obtain ⟨⟨⟨h1, h2⟩, h3⟩, h4⟩ := h
      simp [procTok, h1, h2, h3, h4]
  | n + 3 => rfl

theorem foldlM_unrecognized (axisIndex : Nat) (toks : List (List Char)) :
    (∀ t ∈ toks, recognizedTok axisIndex t = false) → ∀ f : CalibFields,
    List.foldlM (procTok axisIndex) f toks = some f := by
  induction toks with
  | nil => intro _ f; rfl
  | cons t ts ih =>
      intro h f
      have ht : procTok axisIndex f t = some f :=
        procTok_unrecognized axisIndex f t (h t (List.mem_cons_self t ts))
      simp only [List.foldlM, ht, Option.bind_eq_bind, Option.some_bind]
      exact ih (fun x hx => h x (List.mem_cons_of_mem t hx)) f

/-- Claim C9: on every persistence write the stored record's mid field is
recomputed from the min and max being written (it is never settable by the
caller), every producer-path calibration string yields a record with the
given min and max, mid = floor((min + max) / 2) and both deadzones 0, and
the record serializes to a fixed 20-byte layout of five 4-byte unsigned
fields that decodes back to the same record. -/
theorem saveCalibration_mid_deadzones (axisIndex mn mx : Nat)
    (hax : axisIndex < 3) (hmn : mn < 4294967296) (hmx : mx < 4294967296)
    (hsum : mn + mx < 4294967296) :
    (∀ (data : String) (rec : AxisCalibration),
        parseCalibrationData data axisIndex = some rec →
        rec.mid = ((rec.min + rec.max) % 4294967296) / 2)
    ∧ parseCalibrationData (String.mk (producerCalibString axisIndex mn mx)) axisIndex
        = some ⟨mn, (mn + mx) / 2, mx, 0, 0⟩
    ∧ (serializeCalibration ⟨mn, (mn + mx) / 2, mx, 0, 0⟩).length = 20
    ∧ deserializeCalibration (serializeCalibration ⟨mn, (mn + mx) / 2, mx, 0, 0⟩)
        = some ⟨mn, (mn + mx) / 2, mx, 0, 0⟩ := by
  refine ⟨?_, ?_, ?_, ?_⟩
  · intro data rec h
    unfold parseCalibrationData at h
    obtain ⟨f, hf, hrec⟩ := Option.map_eq_some'.mp h
    subst hrec
    rfl
  · rcases (by omega : axisIndex = 0 ∨ axisIndex = 1 ∨ axisIndex = 2) with rfl | rfl | rfl
    · rw [parseProducer0 mn mx hmn hmx, Nat.mod_eq_of_lt hsum]
    · rw [parseProducer1 mn mx hmn hmx, Nat.mod_eq_of_lt hsum]
    · rw [parseProducer2 mn mx hmn hmx, Nat.mod_eq_of_lt hsum]
  · rfl
  · have hmid : (mn + mx) / 2 < 4294967296 := by omega
    have hlen : (serializeCalibration ⟨mn, (mn + mx) / 2, mx, 0, 0⟩).length = 20 := rfl
    unfold deserializeCalibration
    rw [if_pos hlen]
    simp only [Option.some.injEq, AxisCalibration.mk.injEq]
    refine ⟨?_, ?_, ?_, ?_, ?_⟩
    · show mn % 256 + 256 * (mn / 256 % 256) + 65536 * (mn / 65536 % 256)
          + 16777216 * (mn / 16777216 % 256) = mn
      omega
    · show (mn + mx) / 2 % 256 + 256 * ((mn + mx) / 2 / 256 % 256)
          + 65536 * ((mn + mx) / 2 / 65536 % 256)
          + 16777216 * ((mn + mx) / 2 / 16777216 % 256) = (mn + mx) / 2
      omega
    · show mx % 256 + 256 * (mx / 256 % 256) + 65536 * (mx / 65536 % 256)
          + 16777216 * (mx / 16777216 % 256) = mx
      omega
    · show (0 : Nat) % 256 + 256 * (0 / 256 % 256) + 65536 * (0 / 65536 % 256)
          + 16777216 * (0 / 16777216 % 256) = 0
      omega
    · show (0 : Nat) % 256 + 256 * (0 / 256 % 256) + 65536 * (0 / 65536 % 256)
          + 16777216 * (0 / 16777216 % 256) = 0
      omega

/-- Claim C9, witness: the persistence-write statement applied to axis X
with min 440 and max 3790, matching the spec scenario (mid 2115,
deadzones 0). -/
theorem saveCalibration_mid_deadzones_witness :
    ((0 : Nat) < 3 ∧ 440 < 4294967296 ∧ 3790 < 4294967296 ∧ 440 + 3790 < 4294967296)
    ∧ parseCalibrationData (String.mk (producerCalibString 0 440 3790)) 0
        = some ⟨440, 2115, 3790, 0, 0⟩ :=
  ⟨⟨by decide, by decide, by decide, by decide⟩,
   (saveCalibration_mid_deadzones 0 440 3790 (by decide) (by decide) (by decide)
      (by decide)).2.1⟩

/-- Claim C10, counterexample: the string "MinDeadzoneX=7;" for axis X
contains only a recognized token, yet no record at all is written — the
value substring taken after the 13-character deadzone prefix starts at
offset 12, so it still contains the '=' and the numeric parse fails,
aborting the write instead of writing min 0 and max 4095 with their
defaults. -/
theorem deadzone_token_aborts_write_cex :
    parseCalibrationData "MinDeadzoneX=7;" 0 = none := by
  decide

/-- Claim C10, amended: a semicolon-terminated token that does not begin
with a recognized prefix is silently ignored (the parse accumulator is
unchanged), and a calibration string all of whose tokens are unrecognized
for the axis writes the default record {0, 2047, 4095, 0, 0}; a
recognized deadzone token, however, aborts the write because its value
substring is taken one character short of the prefix. -/
theorem unrecognized_tokens_defaults :
    (∀ axisIndex (f : CalibFields) tok, recognizedTok axisIndex tok = false →
      procTok axisIndex f tok = some f)
    ∧ (∀ (axisIndex : Nat) (data : String),
        (∀ tok ∈ splitTokens data.data, recognizedTok axisIndex tok = false) →
        parseCalibrationData data axisIndex = some ⟨0, 2047, 4095, 0, 0⟩) := by
  refine ⟨procTok_unrecognized, ?_⟩
  intro axisIndex data h
  unfold parseCalibrationData
  rw [foldlM_unrecognized axisIndex (splitTokens data.data) h ⟨0, 4095, 0, 0⟩]
  rfl

/-- Claim C10, witness: the amended statement applied to the unrecognized
remainder of the repository's own test string for axis X. -/
theorem unrecognized_tokens_defaults_witness :
    (∀ tok ∈ splitTokens ("MinY=0;MaxY=4096;Deadzone=0;" : String).data,
      recognizedTok 0 tok = false)
    ∧ parseCalibrationData "MinY=0;MaxY=4096;Deadzone=0;" 0 = some ⟨0, 2047, 4095, 0, 0⟩ :=
  ⟨by decide, unrecognized_tokens_defaults.2 0 "MinY=0;MaxY=4096;Deadzone=0;" (by decide)⟩

end TrackPro
